import Mathlib

/-!
Shallow embedding of the imgui-wgpu renderer (`src/lib.rs`).

GPU objects (textures, views, samplers, bind groups, buffers, pipelines) are
modelled by identity tokens (`Nat`) handed out by an allocation counter on the
`Device`; creating an object advances the counter, so "no new GPU object is
allocated" is expressed as the device being unchanged.  `f32` quantities that
the renderer only combines with exact operations (subtraction, multiplication,
comparison, `min`/`max`/`abs`/`floor`/`ceil`) are modelled as rationals.
Fallible map lookups return `Option`.
-/

namespace ImguiWgpu

/-- A pixel format, as used by `TextureDescriptor::bytes_per_row`: it exposes
block dimensions and an optional per-block copy size (the `Rgba8Unorm` format
used by the font atlas has 1x1 blocks of 4 bytes). -/
inductive TextureFormat where
  | Rgba8Unorm
  | Other (block_w block_h : Nat) (block_size : Option Nat)
deriving DecidableEq, Repr

/-- Block dimensions of a format (`wgpu::TextureFormat::block_dimensions`). -/
def TextureFormat.block_dimensions : TextureFormat → Nat × Nat
  | .Rgba8Unorm => (1, 1)
  | .Other w h _ => (w, h)

/-- Bytes per block of a format, when fixed
(`wgpu::TextureFormat::block_copy_size`). -/
def TextureFormat.block_copy_size : TextureFormat → Option Nat
  | .Rgba8Unorm => some 4
  | .Other _ _ s => s

/-- Texture usage bit flags (`wgpu::TextureUsages`). -/
def TextureUsages.COPY_DST : Nat := 2

/-- Texture usage bit flag for binding a texture in a shader. -/
def TextureUsages.TEXTURE_BINDING : Nat := 4

/-- `TextureDescriptor` from `src/lib.rs` lines 11-17. -/
structure TextureDescriptor where
  width : Nat
  height : Nat
  mip_level_count : Nat
  format : TextureFormat
  usage : Nat
deriving DecidableEq, Repr

/-- `TextureDescriptor::bytes_per_row` (lines 37-41): `width / block_w *
block_size`, or `none` when the format has no fixed block copy size. -/
def TextureDescriptor.bytes_per_row (d : TextureDescriptor) : Option Nat :=
  d.format.block_copy_size.map fun block_size =>
    d.width / d.format.block_dimensions.1 * block_size

/-- The `Default` impl for `TextureDescriptor` (lines 44-54). -/
def TextureDescriptor.default : TextureDescriptor :=
  { width := 1
    height := 1
    mip_level_count := 1
    format := .Rgba8Unorm
    usage := TextureUsages.COPY_DST ||| TextureUsages.TEXTURE_BINDING }

/-- `wgpu::AddressMode` (default `ClampToEdge`). -/
inductive AddressMode where
  | ClampToEdge
  | Repeat
  | MirrorRepeat
deriving DecidableEq, Repr

/-- `wgpu::FilterMode` (default `Nearest`). -/
inductive FilterMode where
  | Nearest
  | Linear
deriving DecidableEq, Repr

/-- The largest finite `f32` value, used by the default sampler descriptor. -/
def f32_max : ℚ := 2 ^ 128 - 2 ^ 104

/-- `SamplerDescriptor` from `src/lib.rs` lines 56-66.  Border colors are
modelled as opaque tokens. -/
structure SamplerDescriptor where
  address_mode_u : AddressMode
  address_mode_v : AddressMode
  mag_filter : FilterMode
  min_filter : FilterMode
  mipmap_filter : FilterMode
  lod_min_clamp : ℚ
  lod_max_clamp : ℚ
  anisotropy_clamp : Nat
  border_color : Option Nat
deriving DecidableEq, Repr

/-- The `Default` impl for `SamplerDescriptor` (lines 86-100). -/
def SamplerDescriptor.default : SamplerDescriptor :=
  { address_mode_u := .ClampToEdge
    address_mode_v := .ClampToEdge
    mag_filter := .Nearest
    min_filter := .Nearest
    mipmap_filter := .Nearest
    lod_min_clamp := 0
    lod_max_clamp := f32_max
    anisotropy_clamp := 1
    border_color := none }

/-- `TextureSetRange` from `src/lib.rs` lines 102-110. -/
structure TextureSetRange where
  mip_level : Nat
  x : Nat
  y : Nat
  width : Option Nat
  height : Option Nat
  offset : Nat
deriving DecidableEq, Repr

/-- The derived `Default` for `TextureSetRange`. -/
def TextureSetRange.default : TextureSetRange :=
  { mip_level := 0, x := 0, y := 0, width := none, height := none, offset := 0 }

/-- The GPU device, reduced to its object-allocation behaviour: a counter of
fresh object identity tokens. -/
structure Device where
  next_id : Nat
deriving DecidableEq, Repr

/-- Allocate one fresh GPU object identity token. -/
def Device.alloc (d : Device) : Nat × Device :=
  (d.next_id, { next_id := d.next_id + 1 })

/-- `OwnedTexture` from `src/lib.rs` lines 112-120.  The lazily created GPU
texture/view pair, sampler and bind group are identity tokens inside `Option`
(`none` models an empty `RefCell` cache). -/
structure OwnedTexture where
  label : Option String
  texture_desc : TextureDescriptor
  texture_bytes_per_row : Option Nat
  texture_data : Option (Nat × Nat)
  sampler_desc : SamplerDescriptor
  sampler : Option Nat
  bind_group : Option Nat
deriving DecidableEq, Repr

/-- `OwnedTexture::new` (lines 135-149): caches start empty and the derived
bytes-per-row is computed from the construction-time descriptor. -/
def OwnedTexture.new (label : Option String) (texture_desc : TextureDescriptor)
    (sampler_desc : SamplerDescriptor) : OwnedTexture :=
  { label
    texture_bytes_per_row := texture_desc.bytes_per_row
    texture_desc
    texture_data := none
    sampler_desc
    sampler := none
    bind_group := none }

/-- `OwnedTexture::set_label` (lines 155-160). -/
def OwnedTexture.set_label (t : OwnedTexture) (value : Option String) : OwnedTexture :=
  { t with label := value, texture_data := none, sampler := none, bind_group := none }

/-- `OwnedTexture::set_texture_desc` (lines 166-170). -/
def OwnedTexture.set_texture_desc (t : OwnedTexture) (value : TextureDescriptor) : OwnedTexture :=
  { t with texture_desc := value, texture_data := none, bind_group := none }

/-- `OwnedTexture::set_sampler_desc` (lines 180-184). -/
def OwnedTexture.set_sampler_desc (t : OwnedTexture) (value : SamplerDescriptor) : OwnedTexture :=
  { t with sampler_desc := value, sampler := none, bind_group := none }

/-- The `owned_texture_texture_data!` helper (lines 122-131):
`get_or_insert_with` on the texture/view cache, creating a texture and a view
on the device when the cache is empty. -/
def OwnedTexture.get_or_create_texture_data (t : OwnedTexture) (device : Device) :
    (Nat × Nat) × OwnedTexture × Device :=
  match t.texture_data with
  | some td => (td, t, device)
  | none =>
    let (texture, device) := device.alloc
    let (view, device) := device.alloc
    ((texture, view), { t with texture_data := some (texture, view) }, device)

/-- `OwnedTexture::update_bind_group` (lines 186-210): materialize the
texture/view pair, then the sampler, then the bind group, each only when its
cache is empty.  The layout argument is passed to bind-group creation but does
not key the cache. -/
def OwnedTexture.update_bind_group (t : OwnedTexture) (device : Device)
    (bind_group_layout : Nat) : OwnedTexture × Device :=
  let (_, t, device) := t.get_or_create_texture_data device
  let (t, device) :=
    match t.sampler with
    | some _ => (t, device)
    | none =>
      let (s, device) := device.alloc
      ({ t with sampler := some s }, device)
  match t.bind_group with
  | some _ => (t, device)
  | none =>
    let (bg, device) := device.alloc
    let _ := bind_group_layout
    ({ t with bind_group := some bg }, device)

/-- One `Queue::write_texture` call, as observed by `OwnedTexture::set_data`:
destination texture token, sub-region, data layout and copy extent. -/
structure WriteTexture where
  texture : Nat
  mip_level : Nat
  x : Nat
  y : Nat
  offset : Nat
  bytes_per_row : Option Nat
  width : Nat
  height : Nat
  data_len : Nat
deriving DecidableEq, Repr

/-- `OwnedTexture::set_data` (lines 212-244): materialize the texture if
needed, then issue one `write_texture` into the sub-region described by
`range`, with the stored derived bytes-per-row as row pitch and the
descriptor's width/height as the default copy extent. -/
def OwnedTexture.set_data (t : OwnedTexture) (device : Device) (data_len : Nat)
    (range : TextureSetRange) : OwnedTexture × Device × WriteTexture :=
  let (td, t, device) := t.get_or_create_texture_data device
  (t, device,
    { texture := td.1
      mip_level := range.mip_level
      x := range.x
      y := range.y
      offset := range.offset
      bytes_per_row := t.texture_bytes_per_row
      width := range.width.getD t.texture_desc.width
      height := range.height.getD t.texture_desc.height
      data_len := data_len })

/-- `TextureView` from `src/lib.rs` lines 247-253: an externally supplied view
token plus lazily created sampler and bind group. -/
structure TextureView where
  label : Option String
  texture_view : Nat
  sampler_desc : SamplerDescriptor
  sampler : Option Nat
  bind_group : Option Nat
deriving DecidableEq, Repr

/-- `TextureView::new` (lines 257-269). -/
def TextureView.new (label : Option String) (texture_view : Nat)
    (sampler_desc : SamplerDescriptor) : TextureView :=
  { label, texture_view, sampler_desc, sampler := none, bind_group := none }

/-- `TextureView::set_label` (lines 275-279). -/
def TextureView.set_label (t : TextureView) (value : Option String) : TextureView :=
  { t with label := value, sampler := none, bind_group := none }

/-- `TextureView::set_texture_view` (lines 285-288). -/
def TextureView.set_texture_view (t : TextureView) (value : Nat) : TextureView × Nat :=
  ({ t with texture_view := value, bind_group := none }, t.texture_view)

/-- `TextureView::set_sampler_desc` (lines 294-298). -/
def TextureView.set_sampler_desc (t : TextureView) (value : SamplerDescriptor) : TextureView :=
  { t with sampler_desc := value, sampler := none, bind_group := none }

/-- `TextureView::update_bind_group` (lines 300-322). -/
def TextureView.update_bind_group (t : TextureView) (device : Device)
    (bind_group_layout : Nat) : TextureView × Device :=
  let (t, device) :=
    match t.sampler with
    | some _ => (t, device)
    | none =>
      let (s, device) := device.alloc
      ({ t with sampler := some s }, device)
  match t.bind_group with
  | some _ => (t, device)
  | none =>
    let (bg, device) := device.alloc
    let _ := bind_group_layout
    ({ t with bind_group := some bg }, device)

/-- The `Texture` tagged union (lines 326-329). -/
inductive Texture where
  | Owned (t : OwnedTexture)
  | View (t : TextureView)
deriving DecidableEq, Repr

/-- `Texture::bind_group` (lines 354-381): run `update_bind_group` on the
variant and read back the (now necessarily populated) cached bind group.  The
returned `Texture` carries the updated caches, mirroring the source's interior
mutability. -/
def Texture.bind_group (t : Texture) (device : Device) (bind_group_layout : Nat) :
    Nat × Texture × Device :=
  match t with
  | .Owned o =>
    let (o, device) := o.update_bind_group device bind_group_layout
    (o.bind_group.getD 0, .Owned o, device)
  | .View v =>
    let (v, device) := v.update_bind_group device bind_group_layout
    (v.bind_group.getD 0, .View v, device)

/-- The texture registry's backing map, modelled as an association list with
at most one live entry per key (`AHashMap<imgui::TextureId, Texture>`).
Lookup (`HashMap::get`). -/
def lookupTexture (m : List (Nat × Texture)) (k : Nat) : Option Texture :=
  (m.find? fun e => e.1 == k).map (·.2)

/-- `HashMap::insert`: the new entry replaces any existing entry at the key. -/
def insertTexture (k : Nat) (v : Texture) (m : List (Nat × Texture)) :
    List (Nat × Texture) :=
  (k, v) :: m.filter fun e => e.1 != k

/-- `HashMap::remove`. -/
def removeTexture (k : Nat) (m : List (Nat × Texture)) : List (Nat × Texture) :=
  m.filter fun e => e.1 != k

/-- The `Renderer` state the specification's claims observe (lines 392-406):
growable vertex/index buffers with separately tracked capacities, the texture
registry with its monotone handle counter, and the identity tokens of the
one-time bind-group objects.  Pipeline and shader objects are opaque to every
claim and are not tracked. -/
structure Renderer where
  view_buffer : Nat
  view_bind_group : Nat
  texture_bind_group_layout : Nat
  vtx_buffer : Option Nat
  vtx_buffer_capacity : Nat
  idx_buffer : Option Nat
  idx_buffer_capacity : Nat
  textures : List (Nat × Texture)
  next_texture_id : Nat
deriving DecidableEq, Repr

/-- `Renderer::add_texture` (lines 614-619): issue the counter's current
value as the handle, bump the counter, insert. -/
def Renderer.add_texture (r : Renderer) (texture : Texture) : Nat × Renderer :=
  let id := r.next_texture_id
  (id, { r with
          next_texture_id := id + 1
          textures := insertTexture id texture r.textures })

/-- `Renderer::remove_texture` (lines 663-666). -/
def Renderer.remove_texture (r : Renderer) (id : Nat) : Option Texture × Renderer :=
  (lookupTexture r.textures id, { r with textures := removeTexture id r.textures })

/-- `Renderer::create_owned_texture` (lines 622-629). -/
def Renderer.create_owned_texture (label : Option String)
    (texture_desc : TextureDescriptor) (sampler_desc : SamplerDescriptor) : OwnedTexture :=
  OwnedTexture.new label texture_desc sampler_desc

/-- The font atlas the GUI library builds (`build_rgba32_texture`). -/
structure FontAtlas where
  width : Nat
  height : Nat
  data_len : Nat
deriving DecidableEq, Repr

/-- The slice of the GUI library context that the renderer touches: the
current font-texture handle, the atlas, and the flags the renderer sets. -/
structure ImguiContext where
  font_tex_id : Nat
  atlas : FontAtlas
  tex_data_cleared : Bool
  backend_vtx_offset : Bool
deriving DecidableEq, Repr

/-- `Renderer::reload_fonts` (lines 680-712): remove any texture registered
under the (nonzero) font handle, build a fresh RGBA8 owned texture sized to
the atlas, upload the whole bitmap with a default range, tell the GUI library
to drop its CPU copy, and re-register under the same font handle. -/
def Renderer.reload_fonts (r : Renderer) (device : Device) (ctx : ImguiContext) :
    Renderer × Device × ImguiContext × WriteTexture :=
  let font_tex_id := ctx.font_tex_id
  let r :=
    if font_tex_id ≠ 0 then { r with textures := removeTexture font_tex_id r.textures }
    else r
  let font_atlas := ctx.atlas
  let font_texture := Renderer.create_owned_texture (some "ImGui font atlas")
    { width := font_atlas.width
      height := font_atlas.height
      mip_level_count := 1
      format := .Rgba8Unorm
      usage := TextureUsages.COPY_DST ||| TextureUsages.TEXTURE_BINDING }
    { SamplerDescriptor.default with
        min_filter := .Linear
        mag_filter := .Linear }
  let (font_texture, device, wt) :=
    font_texture.set_data device font_atlas.data_len TextureSetRange.default
  let ctx := { ctx with tex_data_cleared := true }
  ({ r with textures := insertTexture font_tex_id (.Owned font_texture) r.textures },
    device, ctx, wt)

/-- `Renderer::new` (lines 491-600), reduced to the state the claims observe:
allocate the one-time GPU objects, start with no vertex/index buffers and
capacity 0, an empty registry, handle counter 1, set the vertex-offset backend
flag, and perform the initial font reload. -/
def Renderer.new (device : Device) (ctx : ImguiContext) :
    Renderer × Device × ImguiContext × WriteTexture :=
  let ctx := { ctx with backend_vtx_offset := true }
  let (view_buffer, device) := device.alloc
  let (view_bind_group, device) := device.alloc
  let (texture_bind_group_layout, device) := device.alloc
  let r : Renderer :=
    { view_buffer
      view_bind_group
      texture_bind_group_layout
      vtx_buffer := none
      vtx_buffer_capacity := 0
      idx_buffer := none
      idx_buffer_capacity := 0
      textures := []
      next_texture_id := 1 }
  r.reload_fonts device ctx

/-- Parameters of an `imgui::DrawCmd::Elements` command.  The clip rectangle
is `(left, top, right, bottom)` in display coordinates. -/
structure DrawCmdParams where
  clip_rect_l : ℚ
  clip_rect_t : ℚ
  clip_rect_r : ℚ
  clip_rect_b : ℚ
  texture_id : Nat
  vtx_offset : Nat
  idx_offset : Nat
deriving DecidableEq, Repr

/-- An `imgui::DrawCmd`.  The raw-callback payload is opaque. -/
inductive DrawCmd where
  | Elements (count : Nat) (cmd_params : DrawCmdParams)
  | ResetRenderState
  | RawCallback
deriving DecidableEq, Repr

/-- One `imgui::DrawList`: the byte-source lengths of its vertex and index
buffers (in elements) plus its command list. -/
structure DrawList where
  vtx_len : Nat
  idx_len : Nat
  commands : List DrawCmd
deriving DecidableEq, Repr

/-- `imgui::DrawData` for one frame. -/
structure DrawData where
  total_vtx_count : Nat
  total_idx_count : Nat
  display_pos_x : ℚ
  display_pos_y : ℚ
  display_size_x : ℚ
  display_size_y : ℚ
  framebuffer_scale_x : ℚ
  framebuffer_scale_y : ℚ
  draw_lists : List DrawList
deriving DecidableEq, Repr

/-- `size_of::<imgui::DrawVert>()`: 2 f32 position + 2 f32 uv + 4 u8 color. -/
def vtx_stride : Nat := 20

/-- `size_of::<imgui::DrawIdx>()`: imgui-rs uses `u16` indices. -/
def idx_stride : Nat := 2

/-- `wgpu::COPY_BUFFER_ALIGNMENT`. -/
def COPY_BUFFER_ALIGNMENT : Nat := 4

/-- The rounding in `render` lines 747-752: add `COPY_BUFFER_ALIGNMENT - 1`,
then subtract the remainder, rounding the byte size up to the alignment. -/
def align_copy_size (n : Nat) : Nat :=
  let m := n + (COPY_BUFFER_ALIGNMENT - 1)
  m - m % COPY_BUFFER_ALIGNMENT

/-- `u64::next_power_of_two`, by its documented semantics: the smallest power
of two greater than or equal to the argument (`1` for `0`), here via the
ceiling base-2 logarithm. -/
def next_power_of_two (n : Nat) : Nat := 2 ^ Nat.clog 2 n

/-- The buffer growth step of `render` (lines 754-776, identical for the
vertex and index buffers): if no buffer exists or the required size exceeds
the tracked capacity, drop the old buffer, set the capacity to the next power
of two of the required size and create a buffer of that size; otherwise keep
buffer and capacity.  Returns (buffer, capacity, device). -/
def grow_buffer (buf : Option Nat) (capacity : Nat) (size : Nat) (device : Device) :
    Option Nat × Nat × Device :=
  if buf = none ∨ size > capacity then
    let capacity := next_power_of_two size
    let (b, device) := device.alloc
    (some b, capacity, device)
  else
    (buf, capacity, device)

/-- One recorded render-pass or queue operation emitted by `render`, in
recording order. -/
inductive Action where
  | writeVtxBuffer (len : Nat)
  | writeIdxBuffer (len : Nat)
  | setPipeline
  | setIndexBuffer
  | setViewport (w h : ℚ)
  | writeViewBuffer (scale_x scale_y translate_x translate_y : ℚ)
  | setViewBindGroup (bg : Nat)
  | setVertexBuffer
  | setScissor (x y w h : Nat)
  | setTextureBindGroup (bg : Nat)
  | drawIndexed (start stop base : Nat)
  | rawCallback
deriving DecidableEq, Repr

/-- The per-frame parameters the command walk reads. -/
structure FrameCtx where
  fb_width : ℚ
  fb_height : ℚ
  display_pos_x : ℚ
  display_pos_y : ℚ
  framebuffer_scale_x : ℚ
  framebuffer_scale_y : ℚ
  texture_bind_group_layout : Nat
  view_bind_group : Nat
deriving DecidableEq, Repr

/-- The state threaded through the command walk: the texture registry map
(whose entries' caches `Texture::bind_group` may populate) and the device. -/
structure WalkState where
  textures : List (Nat × Texture)
  device : Device
deriving DecidableEq, Repr

/-- Left edge of a clip rect transformed to framebuffer space (lines
843-852): `(coord - display_origin) * framebuffer_scale`. -/
def transformed_clip_l (fc : FrameCtx) (p : DrawCmdParams) : ℚ :=
  (p.clip_rect_l - fc.display_pos_x) * fc.framebuffer_scale_x

/-- Top edge of the transformed clip rect. -/
def transformed_clip_t (fc : FrameCtx) (p : DrawCmdParams) : ℚ :=
  (p.clip_rect_t - fc.display_pos_y) * fc.framebuffer_scale_y

/-- Right edge of the transformed clip rect. -/
def transformed_clip_r (fc : FrameCtx) (p : DrawCmdParams) : ℚ :=
  (p.clip_rect_r - fc.display_pos_x) * fc.framebuffer_scale_x

/-- Bottom edge of the transformed clip rect. -/
def transformed_clip_b (fc : FrameCtx) (p : DrawCmdParams) : ℚ :=
  (p.clip_rect_b - fc.display_pos_y) * fc.framebuffer_scale_y

/-- The first skip test of the walk (lines 853-859): the transformed rect's
left/top at or beyond the framebuffer, or right/bottom at or below zero. -/
def clip_skip (fc : FrameCtx) (p : DrawCmdParams) : Prop :=
  transformed_clip_l fc p ≥ fc.fb_width ∨ transformed_clip_t fc p ≥ fc.fb_height ∨
    transformed_clip_r fc p ≤ 0 ∨ transformed_clip_b fc p ≤ 0

/-- Scissor width (line 862): `ceil(min(|right - left|, fb_width))` cast to
`u32`. -/
def scissor_size_w (fc : FrameCtx) (p : DrawCmdParams) : Nat :=
  (Int.ceil (min |transformed_clip_r fc p - transformed_clip_l fc p| fc.fb_width)).toNat

/-- Scissor height (line 863). -/
def scissor_size_h (fc : FrameCtx) (p : DrawCmdParams) : Nat :=
  (Int.ceil (min |transformed_clip_b fc p - transformed_clip_t fc p| fc.fb_height)).toNat

/-- Scissor x origin (line 871): `floor(max(left, 0))` cast to `u32`. -/
def scissor_x (fc : FrameCtx) (p : DrawCmdParams) : Nat :=
  (Int.floor (max (transformed_clip_l fc p) 0)).toNat

/-- Scissor y origin (line 872). -/
def scissor_y (fc : FrameCtx) (p : DrawCmdParams) : Nat :=
  (Int.floor (max (transformed_clip_t fc p) 0)).toNat

/-- The `DrawCmd::Elements` arm of the command walk (lines 835-889): look up
the texture (skipping the command when absent), bind the vertex buffer,
transform the clip rectangle to framebuffer coordinates, apply the two skip
tests, then set the scissor, bind the texture and issue one indexed draw. -/
def processElements (fc : FrameCtx) (st : WalkState) (vtx_base idx_base : Nat)
    (count : Nat) (p : DrawCmdParams) : WalkState × List Action :=
  match lookupTexture st.textures p.texture_id with
  | none => (st, [])
  | some texture =>
    let clip_l := transformed_clip_l fc p
    let clip_t := transformed_clip_t fc p
    let clip_r := transformed_clip_r fc p
    let clip_b := transformed_clip_b fc p
    if clip_l ≥ fc.fb_width ∨ clip_t ≥ fc.fb_height ∨ clip_r ≤ 0 ∨ clip_b ≤ 0 then
      (st, [.setVertexBuffer])
    else
      let scissor_w := scissor_size_w fc p
      let scissor_h := scissor_size_h fc p
      if scissor_w = 0 ∨ scissor_h = 0 then
        (st, [.setVertexBuffer])
      else
        let (bg, texture, device) :=
          texture.bind_group st.device fc.texture_bind_group_layout
        let idx_start := idx_base + p.idx_offset
        ({ textures := insertTexture p.texture_id texture st.textures, device },
          [.setVertexBuffer,
           .setScissor (scissor_x fc p) (scissor_y fc p) scissor_w scissor_h,
           .setTextureBindGroup bg,
           .drawIndexed idx_start (idx_start + count) (vtx_base + p.vtx_offset)])

/-- One step of the command walk (lines 833-908). -/
def processCmd (fc : FrameCtx) (st : WalkState) (vtx_base idx_base : Nat)
    (cmd : DrawCmd) : WalkState × List Action :=
  match cmd with
  | .Elements count p => processElements fc st vtx_base idx_base count p
  | .ResetRenderState =>
    (st, [.setPipeline, .setIndexBuffer, .setViewport fc.fb_width fc.fb_height,
          .setViewBindGroup fc.view_bind_group])
  | .RawCallback => (st, [.rawCallback])

/-- The command walk over one draw list's commands. -/
def processCmds (fc : FrameCtx) (st : WalkState) (vtx_base idx_base : Nat) :
    List DrawCmd → WalkState × List Action
  | [] => (st, [])
  | cmd :: rest =>
    let (st, acts) := processCmd fc st vtx_base idx_base cmd
    let (st, acts') := processCmds fc st vtx_base idx_base rest
    (st, acts ++ acts')

/-- The walk over all draw lists (lines 830-912): after each list's commands,
the vertex/index bases advance by that list's buffer lengths, regardless of
which commands were drawn or skipped. -/
def processLists (fc : FrameCtx) (st : WalkState) (vtx_base idx_base : Nat) :
    List DrawList → WalkState × List Action
  | [] => (st, [])
  | dl :: rest =>
    let (st, acts) := processCmds fc st vtx_base idx_base dl.commands
    let (st, acts') :=
      processLists fc st (vtx_base + dl.vtx_len) (idx_base + dl.idx_len) rest
    (st, acts ++ acts')

/-- `Renderer::render` (lines 714-913): early-out on an empty frame or a
non-positive framebuffer; grow the vertex/index buffers; upload the batched
geometry; record the fixed frame state; then walk the command lists.  Returns
the updated renderer and device together with the recorded operations. -/
def Renderer.render (r : Renderer) (device : Device) (dd : DrawData) :
    Renderer × Device × List Action :=
  if dd.total_vtx_count = 0 ∨ dd.total_idx_count = 0 then (r, device, [])
  else
    let fb_width := dd.display_size_x * dd.framebuffer_scale_x
    let fb_height := dd.display_size_y * dd.framebuffer_scale_y
    if fb_width ≤ 0 ∨ fb_height ≤ 0 then (r, device, [])
    else
      let vtx_size := align_copy_size (dd.total_vtx_count * vtx_stride)
      let idx_size := align_copy_size (dd.total_idx_count * idx_stride)
      let (vtx_buffer, vtx_buffer_capacity, device) :=
        grow_buffer r.vtx_buffer r.vtx_buffer_capacity vtx_size device
      let (idx_buffer, idx_buffer_capacity, device) :=
        grow_buffer r.idx_buffer r.idx_buffer_capacity idx_size device
      let r := { r with vtx_buffer, vtx_buffer_capacity, idx_buffer, idx_buffer_capacity }
      let scale_x := 2 / dd.display_size_x
      let scale_y := 2 / dd.display_size_y
      let prologue : List Action :=
        [.writeVtxBuffer vtx_size, .writeIdxBuffer idx_size,
         .setPipeline, .setIndexBuffer, .setViewport fb_width fb_height,
         .writeViewBuffer scale_x scale_y
           (-1 - dd.display_pos_x * scale_x) (-1 - dd.display_pos_y * scale_y),
         .setViewBindGroup r.view_bind_group]
      let fc : FrameCtx :=
        { fb_width
          fb_height
          display_pos_x := dd.display_pos_x
          display_pos_y := dd.display_pos_y
          framebuffer_scale_x := dd.framebuffer_scale_x
          framebuffer_scale_y := dd.framebuffer_scale_y
          texture_bind_group_layout := r.texture_bind_group_layout
          view_bind_group := r.view_bind_group }
      let (st, acts) :=
        processLists fc { textures := r.textures, device } 0 0 dd.draw_lists
      ({ r with textures := st.textures }, st.device, prologue ++ acts)

/-- One registry operation performed by the host between or during frames. -/
inductive RegistryOp where
  | addOp (texture : Texture)
  | removeOp (id : Nat)
deriving DecidableEq, Repr

/-- Run a sequence of registry operations, collecting the handles issued by
`add_texture` in order. -/
def runOps (r : Renderer) : List RegistryOp → Renderer × List Nat
  | [] => (r, [])
  | .addOp t :: rest =>
    let (id, r) := r.add_texture t
    let (rf, ids) := runOps r rest
    (rf, id :: ids)
  | .removeOp i :: rest =>
    let (_, r) := r.remove_texture i
    runOps r rest

/-- Number of `add_texture` operations in a registry-operation sequence. -/
def countAdds (ops : List RegistryOp) : Nat :=
  ops.countP fun op =>
    match op with
    | .addOp _ => true
    | _ => false

/-- Whether an action is an indexed draw call. -/
def isDrawCall : Action → Bool
  | .drawIndexed _ _ _ => true
  | _ => false

/-- C2: `set_texture_desc` clears the cached texture/view pair and bind group
but not the sampler; `set_sampler_desc` clears the cached sampler and bind
group but not the texture/view pair; `set_label` clears all three caches.  So
no cached object built from a pre-mutation field survives the mutation. -/
theorem C2_setter_cache_invalidation (t : OwnedTexture) (td : TextureDescriptor)
    (sd : SamplerDescriptor) (l : Option String) :
    ((t.set_texture_desc td).texture_data = none ∧
      (t.set_texture_desc td).bind_group = none ∧
      (t.set_texture_desc td).sampler = t.sampler) ∧
    ((t.set_sampler_desc sd).sampler = none ∧
      (t.set_sampler_desc sd).bind_group = none ∧
      (t.set_sampler_desc sd).texture_data = t.texture_data) ∧
    ((t.set_label l).texture_data = none ∧
      (t.set_label l).sampler = none ∧
      (t.set_label l).bind_group = none) := by
  simp [OwnedTexture.set_texture_desc, OwnedTexture.set_sampler_desc,
    OwnedTexture.set_label]

/-- C10: the stored derived bytes-per-row is computed once at construction;
`set_texture_desc` replaces the descriptor but keeps it, so a later `set_data`
(and the accessor, which is the stored field itself) uses the bytes-per-row of
the construction-time descriptor, not of the current one. -/
theorem C10_bytes_per_row_fixed_at_construction (l : Option String)
    (td td2 : TextureDescriptor) (sd : SamplerDescriptor) (t : OwnedTexture)
    (device : Device) (n : Nat) (range : TextureSetRange) :
    (OwnedTexture.new l td sd).texture_bytes_per_row = td.bytes_per_row ∧
    (t.set_texture_desc td2).texture_bytes_per_row = t.texture_bytes_per_row ∧
    ((t.set_texture_desc td2).set_data device n range).2.2.bytes_per_row =
      t.texture_bytes_per_row := by
  refine ⟨rfl, rfl, ?_⟩
  simp [OwnedTexture.set_texture_desc, OwnedTexture.set_data,
    OwnedTexture.get_or_create_texture_data, Device.alloc]

/-- C9: `set_data` issues one `write_texture` into the sub-region given by its
range, with the stored derived bytes-per-row as row pitch, and leaves the
cached sampler and bind group untouched; when the GPU texture already exists,
the whole resource (hence the texture identity) and the device are unchanged
and the upload targets the existing texture. -/
theorem C9_set_data_upload (t : OwnedTexture) (device : Device) (n : Nat)
    (range : TextureSetRange) :
    ((t.set_data device n range).2.2.bytes_per_row = t.texture_bytes_per_row ∧
      (t.set_data device n range).2.2.mip_level = range.mip_level ∧
      (t.set_data device n range).2.2.x = range.x ∧
      (t.set_data device n range).2.2.y = range.y ∧
      (t.set_data device n range).2.2.offset = range.offset ∧
      (t.set_data device n range).2.2.width = range.width.getD t.texture_desc.width ∧
      (t.set_data device n range).2.2.height = range.height.getD t.texture_desc.height ∧
      (t.set_data device n range).2.2.data_len = n) ∧
    ((t.set_data device n range).1.sampler = t.sampler ∧
      (t.set_data device n range).1.bind_group = t.bind_group) ∧
    (∀ td, t.texture_data = some td →
      (t.set_data device n range).1 = t ∧
      (t.set_data device n range).2.1 = device ∧
      (t.set_data device n range).2.2.texture = td.1) := by
  obtain ⟨l, desc, bpr, tdata, sdesc, s, bg⟩ := t
  cases tdata with
  | none =>
    refine ⟨?_, ?_, ?_⟩ <;>
      simp [OwnedTexture.set_data, OwnedTexture.get_or_create_texture_data, Device.alloc]
  | some td =>
    refine ⟨?_, ?_, ?_⟩ <;>
      simp [OwnedTexture.set_data, OwnedTexture.get_or_create_texture_data, Device.alloc]

/-- C9 witness: a concrete `set_data` call on a texture whose GPU texture
already exists. -/
theorem C9_set_data_upload_witness :
    (((OwnedTexture.new none TextureDescriptor.default SamplerDescriptor.default).set_data
        { next_id := 0 } 4 TextureSetRange.default).1.set_data { next_id := 2 } 4
        TextureSetRange.default).2.1 = { next_id := 2 } := by
  have h := C9_set_data_upload
    ((OwnedTexture.new none TextureDescriptor.default SamplerDescriptor.default).set_data
      { next_id := 0 } 4 TextureSetRange.default).1
    { next_id := 2 } 4 TextureSetRange.default
  exact (h.2.2 (0, 1) rfl).2.1

/-- C4: calling the binding-build entry point twice with the same device and
layout and no mutation in between returns the same cached bind group both
times, leaves the resource unchanged, and allocates nothing on the second
call. -/
theorem C4_bind_group_idempotent (t : Texture) (device : Device) (layout : Nat) :
    ((t.bind_group device layout).2.1.bind_group (t.bind_group device layout).2.2
        layout).1 = (t.bind_group device layout).1 ∧
    ((t.bind_group device layout).2.1.bind_group (t.bind_group device layout).2.2
        layout).2.1 = (t.bind_group device layout).2.1 ∧
    ((t.bind_group device layout).2.1.bind_group (t.bind_group device layout).2.2
        layout).2.2 = (t.bind_group device layout).2.2 := by
  cases t with
  | Owned o =>
    obtain ⟨l, desc, bpr, tdata, sdesc, s, bg⟩ := o
    cases tdata <;> cases s <;> cases bg <;>
      simp [Texture.bind_group, OwnedTexture.update_bind_group,
        OwnedTexture.get_or_create_texture_data, Device.alloc]
  | View v =>
    obtain ⟨l, tv, sdesc, s, bg⟩ := v
    cases s <;> cases bg <;>
      simp [Texture.bind_group, TextureView.update_bind_group, Device.alloc]

/-- C7: a frame with no vertices, no indices, or a non-positive framebuffer
dimension records nothing: no draw calls, no uploads, no buffer
(re)allocation, no state binding, and both the renderer and the device are
left unchanged. -/
theorem C7_degenerate_frame_no_work (r : Renderer) (device : Device) (dd : DrawData)
    (h : dd.total_vtx_count = 0 ∨ dd.total_idx_count = 0 ∨
      dd.display_size_x * dd.framebuffer_scale_x ≤ 0 ∨
      dd.display_size_y * dd.framebuffer_scale_y ≤ 0) :
    r.render device dd = (r, device, []) := by
  by_cases h1 : dd.total_vtx_count = 0 ∨ dd.total_idx_count = 0
  · simp [Renderer.render, h1]
  · have h2 : dd.display_size_x * dd.framebuffer_scale_x ≤ 0 ∨
        dd.display_size_y * dd.framebuffer_scale_y ≤ 0 := by tauto
    simp [Renderer.render, h1, h2]

/-- C7 witness: a concrete empty frame. -/
theorem C7_degenerate_frame_no_work_witness :
    Renderer.render
      { view_buffer := 0, view_bind_group := 1, texture_bind_group_layout := 2,
        vtx_buffer := none, vtx_buffer_capacity := 0, idx_buffer := none,
        idx_buffer_capacity := 0, textures := [], next_texture_id := 1 }
      { next_id := 3 }
      { total_vtx_count := 0, total_idx_count := 6, display_pos_x := 0,
        display_pos_y := 0, display_size_x := 800, display_size_y := 600,
        framebuffer_scale_x := 1, framebuffer_scale_y := 1, draw_lists := [] } =
    ({ view_buffer := 0, view_bind_group := 1, texture_bind_group_layout := 2,
        vtx_buffer := none, vtx_buffer_capacity := 0, idx_buffer := none,
        idx_buffer_capacity := 0, textures := [], next_texture_id := 1 },
      { next_id := 3 }, []) :=
  C7_degenerate_frame_no_work _ _ _ (Or.inl rfl)

/-- The copy-size rounding is exactly "round up to the copy-buffer
alignment": a multiple of the alignment, at least the input, less than the
input plus the alignment. -/
theorem align_copy_size_spec (n : Nat) :
    align_copy_size n % COPY_BUFFER_ALIGNMENT = 0 ∧
    n ≤ align_copy_size n ∧
    align_copy_size n < n + COPY_BUFFER_ALIGNMENT := by
  simp only [align_copy_size, COPY_BUFFER_ALIGNMENT]
  omega

/-- `next_power_of_two` is the least power of two greater than or equal to
its argument. -/
theorem next_power_of_two_spec (n : Nat) :
    n ≤ next_power_of_two n ∧
    (∃ k, next_power_of_two n = 2 ^ k) ∧
    (∀ m, n ≤ 2 ^ m → next_power_of_two n ≤ 2 ^ m) := by
  refine ⟨Nat.le_pow_clog one_lt_two n, ⟨Nat.clog 2 n, rfl⟩, fun m hm => ?_⟩
  exact Nat.pow_le_pow_right (by norm_num)
    ((Nat.le_pow_iff_clog_le one_lt_two).mp hm)

/-- On a non-degenerate frame, the renderer's buffer fields after `render`
are exactly the outcome of the two `grow_buffer` steps (the command walk never
touches them), with the vertex buffer grown first. -/
theorem render_buffer_state (r : Renderer) (device : Device) (dd : DrawData)
    (h1 : ¬(dd.total_vtx_count = 0 ∨ dd.total_idx_count = 0))
    (h2 : ¬(dd.display_size_x * dd.framebuffer_scale_x ≤ 0 ∨
      dd.display_size_y * dd.framebuffer_scale_y ≤ 0)) :
    (r.render device dd).1.vtx_buffer =
      (grow_buffer r.vtx_buffer r.vtx_buffer_capacity
        (align_copy_size (dd.total_vtx_count * vtx_stride)) device).1 ∧
    (r.render device dd).1.vtx_buffer_capacity =
      (grow_buffer r.vtx_buffer r.vtx_buffer_capacity
        (align_copy_size (dd.total_vtx_count * vtx_stride)) device).2.1 ∧
    (r.render device dd).1.idx_buffer =
      (grow_buffer r.idx_buffer r.idx_buffer_capacity
        (align_copy_size (dd.total_idx_count * idx_stride))
        (grow_buffer r.vtx_buffer r.vtx_buffer_capacity
          (align_copy_size (dd.total_vtx_count * vtx_stride)) device).2.2).1 ∧
    (r.render device dd).1.idx_buffer_capacity =
      (grow_buffer r.idx_buffer r.idx_buffer_capacity
        (align_copy_size (dd.total_idx_count * idx_stride))
        (grow_buffer r.vtx_buffer r.vtx_buffer_capacity
          (align_copy_size (dd.total_vtx_count * vtx_stride)) device).2.2).2.1 := by
  rcases hgv : grow_buffer r.vtx_buffer r.vtx_buffer_capacity
    (align_copy_size (dd.total_vtx_count * vtx_stride)) device with ⟨vb, vc, dv⟩
  rcases hgi : grow_buffer r.idx_buffer r.idx_buffer_capacity
    (align_copy_size (dd.total_idx_count * idx_stride)) dv with ⟨ib, ic, di⟩
  rcases hw : processLists
    { fb_width := dd.display_size_x * dd.framebuffer_scale_x
      fb_height := dd.display_size_y * dd.framebuffer_scale_y
      display_pos_x := dd.display_pos_x
      display_pos_y := dd.display_pos_y
      framebuffer_scale_x := dd.framebuffer_scale_x
      framebuffer_scale_y := dd.framebuffer_scale_y
      texture_bind_group_layout := r.texture_bind_group_layout
      view_bind_group := r.view_bind_group }
    { textures := r.textures, device := di } 0 0 dd.draw_lists with ⟨st, acts⟩
  simp [Renderer.render, h1, h2, hgv, hgi, hw]

/-- The device counter never decreases across a buffer-growth step. -/
theorem grow_buffer_device_mono (buf : Option Nat) (capacity size : Nat) (device : Device) :
    device.next_id ≤ (grow_buffer buf capacity size device).2.2.next_id := by
  unfold grow_buffer
  split <;> simp [Device.alloc]

/-- C3: on a non-degenerate frame, each buffer's required byte size is the
element count times the stride rounded up to the copy-buffer alignment; a new
buffer (a fresh GPU object token) is allocated exactly when no buffer exists
or the required size exceeds the tracked capacity, with the new capacity the
least power of two at least the required size; otherwise buffer and capacity
are unchanged (in particular a shrink never reallocates). -/
theorem C3_buffer_growth (r : Renderer) (device : Device) (dd : DrawData)
    (h1 : dd.total_vtx_count ≠ 0) (h2 : dd.total_idx_count ≠ 0)
    (h3 : 0 < dd.display_size_x * dd.framebuffer_scale_x)
    (h4 : 0 < dd.display_size_y * dd.framebuffer_scale_y) :
    (align_copy_size (dd.total_vtx_count * vtx_stride) % COPY_BUFFER_ALIGNMENT = 0 ∧
      dd.total_vtx_count * vtx_stride ≤ align_copy_size (dd.total_vtx_count * vtx_stride) ∧
      align_copy_size (dd.total_vtx_count * vtx_stride) <
        dd.total_vtx_count * vtx_stride + COPY_BUFFER_ALIGNMENT) ∧
    (align_copy_size (dd.total_idx_count * idx_stride) % COPY_BUFFER_ALIGNMENT = 0 ∧
      dd.total_idx_count * idx_stride ≤ align_copy_size (dd.total_idx_count * idx_stride) ∧
      align_copy_size (dd.total_idx_count * idx_stride) <
        dd.total_idx_count * idx_stride + COPY_BUFFER_ALIGNMENT) ∧
    ((r.vtx_buffer = none ∨
        align_copy_size (dd.total_vtx_count * vtx_stride) > r.vtx_buffer_capacity) →
      (∃ b, (r.render device dd).1.vtx_buffer = some b ∧ device.next_id ≤ b) ∧
      (r.render device dd).1.vtx_buffer_capacity =
        next_power_of_two (align_copy_size (dd.total_vtx_count * vtx_stride))) ∧
    (r.vtx_buffer ≠ none →
      align_copy_size (dd.total_vtx_count * vtx_stride) ≤ r.vtx_buffer_capacity →
      (r.render device dd).1.vtx_buffer = r.vtx_buffer ∧
      (r.render device dd).1.vtx_buffer_capacity = r.vtx_buffer_capacity) ∧
    ((r.idx_buffer = none ∨
        align_copy_size (dd.total_idx_count * idx_stride) > r.idx_buffer_capacity) →
      (∃ b, (r.render device dd).1.idx_buffer = some b ∧ device.next_id ≤ b) ∧
      (r.render device dd).1.idx_buffer_capacity =
        next_power_of_two (align_copy_size (dd.total_idx_count * idx_stride))) ∧
    (r.idx_buffer ≠ none →
      align_copy_size (dd.total_idx_count * idx_stride) ≤ r.idx_buffer_capacity →
      (r.render device dd).1.idx_buffer = r.idx_buffer ∧
      (r.render device dd).1.idx_buffer_capacity = r.idx_buffer_capacity) ∧
    (∀ n, n ≤ next_power_of_two n ∧ (∃ k, next_power_of_two n = 2 ^ k) ∧
      ∀ m, n ≤ 2 ^ m → next_power_of_two n ≤ 2 ^ m) := by
  have hc1 : ¬(dd.total_vtx_count = 0 ∨ dd.total_idx_count = 0) := by tauto
  have hc2 : ¬(dd.display_size_x * dd.framebuffer_scale_x ≤ 0 ∨
      dd.display_size_y * dd.framebuffer_scale_y ≤ 0) := by
    push_neg
    exact ⟨h3, h4⟩
  obtain ⟨e1, e2, e3, e4⟩ := render_buffer_state r device dd hc1 hc2
  rw [e1, e2, e3, e4]
  refine ⟨align_copy_size_spec _, align_copy_size_spec _, ?_, ?_, ?_, ?_,
    next_power_of_two_spec⟩
  · intro hg
    simp [grow_buffer, hg, Device.alloc]
  · intro hne hle
    have hnotgrow : ¬(r.vtx_buffer = none ∨
        align_copy_size (dd.total_vtx_count * vtx_stride) > r.vtx_buffer_capacity) := by
      push_neg
      exact ⟨hne, hle⟩
    simp [grow_buffer, hnotgrow]
  · intro hg
    refine ⟨⟨(grow_buffer r.vtx_buffer r.vtx_buffer_capacity
        (align_copy_size (dd.total_vtx_count * vtx_stride)) device).2.2.next_id, ?_,
        grow_buffer_device_mono _ _ _ _⟩, ?_⟩ <;>
      simp [grow_buffer, hg, Device.alloc]
  · intro hne hle
    have hnotgrow : ¬(r.idx_buffer = none ∨
        align_copy_size (dd.total_idx_count * idx_stride) > r.idx_buffer_capacity) := by
      push_neg
      exact ⟨hne, hle⟩
    simp [grow_buffer, hnotgrow]

/-- C3 witness: a concrete frame with 4 vertices and 6 indices starting from
empty buffers allocates a 128-byte vertex buffer and a 16-byte index buffer. -/
theorem C3_buffer_growth_witness :
    (Renderer.render
      { view_buffer := 0, view_bind_group := 1, texture_bind_group_layout := 2,
        vtx_buffer := none, vtx_buffer_capacity := 0, idx_buffer := none,
        idx_buffer_capacity := 0, textures := [], next_texture_id := 1 }
      { next_id := 3 }
      { total_vtx_count := 4, total_idx_count := 6, display_pos_x := 0,
        display_pos_y := 0, display_size_x := 800, display_size_y := 600,
        framebuffer_scale_x := 1, framebuffer_scale_y := 1,
        draw_lists := [] }).1.vtx_buffer_capacity = 128 := by
  have h := C3_buffer_growth
    { view_buffer := 0, view_bind_group := 1, texture_bind_group_layout := 2,
      vtx_buffer := none, vtx_buffer_capacity := 0, idx_buffer := none,
      idx_buffer_capacity := 0, textures := [], next_texture_id := 1 }
    { next_id := 3 }
    { total_vtx_count := 4, total_idx_count := 6, display_pos_x := 0,
      display_pos_y := 0, display_size_x := 800, display_size_y := 600,
      framebuffer_scale_x := 1, framebuffer_scale_y := 1, draw_lists := [] }
    (by norm_num) (by norm_num) (by norm_num) (by norm_num)
  have hcap := (h.2.2.1 (Or.inl rfl)).2
  rw [hcap]
  norm_num [align_copy_size, next_power_of_two, vtx_stride, COPY_BUFFER_ALIGNMENT, Nat.clog]

/-- The handles issued by a sequence of registry operations are the
consecutive integers starting at the counter's current value, one per
`add_texture`; removals never touch the counter. -/
theorem runOps_issued (ops : List RegistryOp) (r : Renderer) :
    (runOps r ops).2 = List.range' r.next_texture_id (countAdds ops) := by
  induction ops generalizing r with
  | nil => simp [runOps, countAdds]
  | cons op rest ih =>
    cases op with
    | addOp t =>
      simp [runOps, Renderer.add_texture, countAdds, List.countP_cons, ih,
        List.range'_succ]
    | removeOp i =>
      simpa [runOps, Renderer.remove_texture, countAdds, List.countP_cons] using
        ih { r with textures := removeTexture i r.textures }

/-- C5: starting from a fresh renderer, across any sequence of inserts and
removals the issued handles are exactly `1, 2, 3, ...` in order: each is
strictly greater than all previously issued ones, the first is `1`, `0` is
never issued, and no handle is ever issued twice (even after removals). -/
theorem C5_handle_counter (device : Device) (ctx : ImguiContext) (ops : List RegistryOp) :
    (runOps (Renderer.new device ctx).1 ops).2 = List.range' 1 (countAdds ops) ∧
    List.Pairwise (· < ·) (runOps (Renderer.new device ctx).1 ops).2 ∧
    0 ∉ (runOps (Renderer.new device ctx).1 ops).2 ∧
    (runOps (Renderer.new device ctx).1 ops).2.Nodup := by
  have hnext : (Renderer.new device ctx).1.next_texture_id = 1 := by
    simp [Renderer.new, Renderer.reload_fonts, Renderer.create_owned_texture,
      OwnedTexture.new, OwnedTexture.set_data, OwnedTexture.get_or_create_texture_data,
      Device.alloc, apply_ite]
  have hiss : (runOps (Renderer.new device ctx).1 ops).2 =
      List.range' 1 (countAdds ops) := by
    rw [runOps_issued, hnext]
  refine ⟨hiss, ?_, ?_, ?_⟩
  · rw [hiss]
    exact List.pairwise_lt_range' 1 (countAdds ops)
  · rw [hiss]
    simp only [List.mem_range']
    omega
  · rw [hiss]
    exact List.nodup_range' 1 (countAdds ops)

/-- Filtering an insert-result for the inserted key yields exactly the new
entry: `insert` replaces any previous entry at that key. -/
theorem filter_insertTexture (k : Nat) (v : Texture) (m : List (Nat × Texture)) :
    (insertTexture k v m).filter (fun e => e.1 == k) = [(k, v)] := by
  simp [insertTexture, List.filter_filter]

/-- Looking up the key just inserted returns the inserted texture. -/
theorem lookupTexture_insertTexture_self (k : Nat) (v : Texture)
    (m : List (Nat × Texture)) :
    lookupTexture (insertTexture k v m) k = some v := by
  simp [lookupTexture, insertTexture]

/-- Full unfolding of `reload_fonts`: remove under the nonzero font handle,
then register a freshly built and uploaded RGBA8 atlas texture under the same
handle; the device allocates exactly the new GPU texture and its view. -/
theorem reload_fonts_unfold (r : Renderer) (device : Device) (ctx : ImguiContext) :
    r.reload_fonts device ctx =
      ({ r with
          textures := insertTexture ctx.font_tex_id
            (.Owned { label := some "ImGui font atlas"
                      texture_desc :=
                        { width := ctx.atlas.width
                          height := ctx.atlas.height
                          mip_level_count := 1
                          format := .Rgba8Unorm
                          usage := TextureUsages.COPY_DST ||| TextureUsages.TEXTURE_BINDING }
                      texture_bytes_per_row := some (ctx.atlas.width * 4)
                      texture_data := some (device.next_id, device.next_id + 1)
                      sampler_desc := { SamplerDescriptor.default with
                        min_filter := .Linear
                        mag_filter := .Linear }
                      sampler := none
                      bind_group := none })
            (if ctx.font_tex_id ≠ 0 then removeTexture ctx.font_tex_id r.textures
              else r.textures) },
        { next_id := device.next_id + 2 },
        { ctx with tex_data_cleared := true },
        { texture := device.next_id
          mip_level := 0
          x := 0
          y := 0
          offset := 0
          bytes_per_row := some (ctx.atlas.width * 4)
          width := ctx.atlas.width
          height := ctx.atlas.height
          data_len := ctx.atlas.data_len }) := by
  by_cases hc : ctx.font_tex_id ≠ 0 <;>
    simp [Renderer.reload_fonts, Renderer.create_owned_texture, hc,
      OwnedTexture.new, OwnedTexture.set_data, OwnedTexture.get_or_create_texture_data,
      Device.alloc, TextureDescriptor.bytes_per_row, TextureFormat.block_copy_size,
      TextureFormat.block_dimensions, TextureSetRange.default]

/-- C8: `reload_fonts` removes any texture under the (nonzero) font handle and
registers the freshly built atlas texture under that same handle, without
touching the handle counter; after the call, and after a second consecutive
call, exactly one texture is registered under the font handle, an owned RGBA8
texture sized to the atlas whose upload carries the atlas bitmap. -/
theorem C8_font_reload (r : Renderer) (device : Device) (ctx : ImguiContext) :
    (((r.reload_fonts device ctx).1.textures.filter
        fun e => e.1 == ctx.font_tex_id).length = 1) ∧
    (r.reload_fonts device ctx).1.next_texture_id = r.next_texture_id ∧
    (r.reload_fonts device ctx).2.2.1.font_tex_id = ctx.font_tex_id ∧
    (∃ t, lookupTexture (r.reload_fonts device ctx).1.textures ctx.font_tex_id =
        some (.Owned t) ∧
      t.texture_desc.width = ctx.atlas.width ∧
      t.texture_desc.height = ctx.atlas.height ∧
      t.texture_desc.format = .Rgba8Unorm ∧
      (r.reload_fonts device ctx).2.2.2.data_len = ctx.atlas.data_len ∧
      (r.reload_fonts device ctx).2.2.2.width = ctx.atlas.width ∧
      (r.reload_fonts device ctx).2.2.2.height = ctx.atlas.height) ∧
    ((((r.reload_fonts device ctx).1.reload_fonts (r.reload_fonts device ctx).2.1
        (r.reload_fonts device ctx).2.2.1).1.textures.filter
        fun e => e.1 == ctx.font_tex_id).length = 1) := by
  refine ⟨?_, ?_, ?_, ?_, ?_⟩
  · rw [reload_fonts_unfold]
    simp [filter_insertTexture]
  · rw [reload_fonts_unfold]
  · rw [reload_fonts_unfold]
  · rw [reload_fonts_unfold]
    exact ⟨_, lookupTexture_insertTexture_self _ _ _, rfl, rfl, rfl, rfl, rfl, rfl⟩
  · rw [reload_fonts_unfold, reload_fonts_unfold]
    simp [filter_insertTexture]

/-- Filtering out a key other than `k` does not change the first entry found
for `k`. -/
theorem find?_filter_ne (k k2 : Nat) (m : List (Nat × Texture)) (h : k ≠ k2) :
    (m.filter fun e => e.1 != k2).find? (fun e => e.1 == k) =
      m.find? (fun e => e.1 == k) := by
  induction m with
  | nil => rfl
  | cons e m ih =>
    by_cases he : e.1 = k
    · have h1 : (e.1 != k2) = true := by simp [he, h]
      have h2 : (e.1 == k) = true := by simp [he]
      simp [List.filter_cons, h1, List.find?_cons, h2]
    · have h2 : (e.1 == k) = false := by simp [he]
      have h5 : (k2 == k) = false := by simp [Ne.symm h]
      by_cases h3 : e.1 = k2
      · simp [List.filter_cons, h3, List.find?_cons, h2, h5, ih]
      · have h4 : (e.1 != k2) = true := by simp [h3]
        simp [List.filter_cons, h4, List.find?_cons, h2, ih]

/-- Inserting under a different key does not change a lookup. -/
theorem lookupTexture_insertTexture_ne (k k2 : Nat) (v : Texture)
    (m : List (Nat × Texture)) (h : k ≠ k2) :
    lookupTexture (insertTexture k2 v m) k = lookupTexture m k := by
  have h1 : (k2 == k) = false := by simp [Ne.symm h]
  simp [lookupTexture, insertTexture, h1, find?_filter_ne k k2 m h]

/-- A handle absent from the registry map stays absent across the
`Elements` arm of the walk: the arm only re-inserts a key it just looked up
successfully. -/
theorem processElements_preserves_missing (fc : FrameCtx) (st : WalkState)
    (vb ib count : Nat) (p : DrawCmdParams) (k : Nat)
    (h : lookupTexture st.textures k = none) :
    lookupTexture (processElements fc st vb ib count p).1.textures k = none := by
  unfold processElements
  cases hl : lookupTexture st.textures p.texture_id with
  | none => simpa using h
  | some tex =>
    dsimp only
    have hne : k ≠ p.texture_id := by
      rintro rfl
      rw [h] at hl
      cases hl
    rcases hbg : tex.bind_group st.device fc.texture_bind_group_layout with ⟨bg, tex2, dev2⟩
    split_ifs <;> simp [lookupTexture_insertTexture_ne _ _ _ _ hne, h]

/-- A handle absent from the registry map stays absent across one walk step. -/
theorem processCmd_preserves_missing (fc : FrameCtx) (st : WalkState)
    (vb ib : Nat) (cmd : DrawCmd) (k : Nat)
    (h : lookupTexture st.textures k = none) :
    lookupTexture (processCmd fc st vb ib cmd).1.textures k = none := by
  cases cmd with
  | Elements count p => exact processElements_preserves_missing fc st vb ib count p k h
  | ResetRenderState => simpa [processCmd] using h
  | RawCallback => simpa [processCmd] using h

/-- C6: a draw-element command whose texture handle is absent from the
registry contributes no recorded operation at all and leaves the walk state
untouched; the whole command list behaves as if that command were deleted,
and the per-list vertex/index bases of later draw lists are advanced by the
list lengths exactly as if the command had been drawn. -/
theorem C6_missing_texture_skipped (fc : FrameCtx) (st : WalkState) (vb ib : Nat)
    (cmds : List DrawCmd) (i count : Nat) (p : DrawCmdParams)
    (hcmd : cmds[i]? = some (.Elements count p))
    (hmiss : lookupTexture st.textures p.texture_id = none) :
    processElements fc st vb ib count p = (st, []) ∧
    processCmds fc st vb ib cmds = processCmds fc st vb ib (cmds.eraseIdx i) ∧
    (∀ (vlen ilen : Nat) (rest : List DrawList),
      processLists fc st vb ib
        ({ vtx_len := vlen, idx_len := ilen, commands := cmds } :: rest) =
      processLists fc st vb ib
        ({ vtx_len := vlen, idx_len := ilen, commands := cmds.eraseIdx i } :: rest)) := by
  have hskip : processElements fc st vb ib count p = (st, []) := by
    unfold processElements
    rw [hmiss]
  have hcmds : ∀ (cmds : List DrawCmd) (i : Nat) (st : WalkState),
      cmds[i]? = some (.Elements count p) →
      lookupTexture st.textures p.texture_id = none →
      processCmds fc st vb ib cmds = processCmds fc st vb ib (cmds.eraseIdx i) := by
    intro cmds
    induction cmds with
    | nil => intro i st hc _; simp at hc
    | cons c rest ih =>
      intro i st hc hm
      cases i with
      | zero =>
        simp at hc
        subst hc
        have h0 : processElements fc st vb ib count p = (st, []) := by
          unfold processElements
          rw [hm]
        simp [processCmds, List.eraseIdx, processCmd, h0]
      | succ i =>
        simp at hc
        rcases h1 : processCmd fc st vb ib c with ⟨st1, a1⟩
        have hm1 : lookupTexture st1.textures p.texture_id = none := by
          have := processCmd_preserves_missing fc st vb ib c p.texture_id hm
          rw [h1] at this
          exact this
        simp [processCmds, List.eraseIdx, h1, ih i st1 hc hm1]
  refine ⟨hskip, hcmds cmds i st hcmd hmiss, ?_⟩
  intro vlen ilen rest
  simp [processLists, hcmds cmds i st hcmd hmiss]

/-- C6 witness: a single-command list referencing the absent handle 7 in an
empty registry walks identically to the empty command list. -/
theorem C6_missing_texture_skipped_witness :
    processCmds
      { fb_width := 100, fb_height := 100, display_pos_x := 0, display_pos_y := 0,
        framebuffer_scale_x := 1, framebuffer_scale_y := 1,
        texture_bind_group_layout := 2, view_bind_group := 1 }
      { textures := [], device := { next_id := 3 } } 0 0
      [.Elements 3 { clip_rect_l := 0
                     clip_rect_t := 0
                     clip_rect_r := 10
                     clip_rect_b := 10
                     texture_id := 7
                     vtx_offset := 0
                     idx_offset := 0 }] =
    processCmds
      { fb_width := 100, fb_height := 100, display_pos_x := 0, display_pos_y := 0,
        framebuffer_scale_x := 1, framebuffer_scale_y := 1,
        texture_bind_group_layout := 2, view_bind_group := 1 }
      { textures := [], device := { next_id := 3 } } 0 0 [] :=
  (C6_missing_texture_skipped
    { fb_width := 100, fb_height := 100, display_pos_x := 0, display_pos_y := 0,
      framebuffer_scale_x := 1, framebuffer_scale_y := 1,
      texture_bind_group_layout := 2, view_bind_group := 1 }
    { textures := [], device := { next_id := 3 } } 0 0
    [.Elements 3 { clip_rect_l := 0
                   clip_rect_t := 0
                   clip_rect_r := 10
                   clip_rect_b := 10
                   texture_id := 7
                   vtx_offset := 0
                   idx_offset := 0 }] 0 3
    { clip_rect_l := 0
      clip_rect_t := 0
      clip_rect_r := 10
      clip_rect_b := 10
      texture_id := 7
      vtx_offset := 0
      idx_offset := 0 } rfl rfl).2.1

/-- C1 counterexample, two divergences at a 100x100 framebuffer with origin 0
and scale 1.  First command: transformed clip rect (5, 2, 3, 8) has width
3 - 5 < 0, hence negative area, and is not entirely outside, so the claim
requires zero draw calls — yet the walk issues exactly one (the width test
uses `|3 - 5| = 2`).  Second command: transformed clip rect (-10, 0, 5, 5)
partially overlaps the framebuffer with intersection width 5, so the claim
requires the scissor to be that intersection — yet the walk draws once with
scissor x 0 and width 15. -/
theorem C1_clip_rect_counterexample :
    let fc : FrameCtx :=
      { fb_width := 100, fb_height := 100, display_pos_x := 0, display_pos_y := 0,
        framebuffer_scale_x := 1, framebuffer_scale_y := 1,
        texture_bind_group_layout := 2, view_bind_group := 1 }
    let p : DrawCmdParams :=
      { clip_rect_l := 5, clip_rect_t := 2, clip_rect_r := 3, clip_rect_b := 8,
        texture_id := 1, vtx_offset := 0, idx_offset := 0 }
    let p2 : DrawCmdParams :=
      { clip_rect_l := -10, clip_rect_t := 0, clip_rect_r := 5, clip_rect_b := 5,
        texture_id := 1, vtx_offset := 0, idx_offset := 0 }
    let st : WalkState :=
      { textures := [(1, .View (TextureView.new none 0 SamplerDescriptor.default))],
        device := { next_id := 10 } }
    ((transformed_clip_r fc p - transformed_clip_l fc p) *
        (transformed_clip_b fc p - transformed_clip_t fc p) < 0 ∧
      ¬ clip_skip fc p ∧
      (processElements fc st 0 0 3 p).2.countP isDrawCall = 1) ∧
    (¬ clip_skip fc p2 ∧
      min fc.fb_width (transformed_clip_r fc p2) -
        max 0 (transformed_clip_l fc p2) = 5 ∧
      scissor_x fc p2 = 0 ∧ scissor_size_w fc p2 = 15 ∧
      (processElements fc st 0 0 3 p2).2.countP isDrawCall = 1) := by
  refine ⟨⟨?_, ?_, ?_⟩, ?_, ?_, ?_, ?_, ?_⟩
  · norm_num [transformed_clip_l, transformed_clip_t, transformed_clip_r,
      transformed_clip_b]
  · norm_num [clip_skip, transformed_clip_l, transformed_clip_t, transformed_clip_r,
      transformed_clip_b]
  · norm_num [processElements, lookupTexture, List.find?_cons, TextureView.new,
      transformed_clip_l, transformed_clip_t, transformed_clip_r, transformed_clip_b,
      scissor_size_w, scissor_size_h, scissor_x, scissor_y, Texture.bind_group,
      TextureView.update_bind_group, Device.alloc, insertTexture, isDrawCall,
      min_def, abs]
  · norm_num [clip_skip, transformed_clip_l, transformed_clip_t, transformed_clip_r,
      transformed_clip_b]
  · norm_num [transformed_clip_l, transformed_clip_r, min_def, max_def]
  · norm_num [scissor_x, transformed_clip_l, max_def]
  · norm_num [scissor_size_w, transformed_clip_l, transformed_clip_r, min_def, abs]
    rfl
  · norm_num [processElements, lookupTexture, List.find?_cons, TextureView.new,
      transformed_clip_l, transformed_clip_t, transformed_clip_r, transformed_clip_b,
      scissor_size_w, scissor_size_h, scissor_x, scissor_y, Texture.bind_group,
      TextureView.update_bind_group, Device.alloc, insertTexture, isDrawCall,
      min_def, abs]

/-- C1, amended: for a draw-element command whose handle is present, the walk
issues no draw call exactly when the transformed clip rect is entirely
outside (left/top at or past the framebuffer, or right/bottom at or below 0)
or `ceil(min(|right-left|, fb_w))` or `ceil(min(|bottom-top|, fb_h))` is
zero; otherwise it issues exactly one indexed draw over
`[idx_base+offset, idx_base+offset+count)` with vertex base
`vtx_base+vtx_offset`, whose scissor rect is
`(floor(max(left,0)), floor(max(top,0)), ceil(min(|right-left|, fb_w)),
ceil(min(|bottom-top|, fb_h)))` — the clamped origin with the rounded
absolute extent, not the intersection with the framebuffer. -/
theorem C1_clip_scissor_amended (fc : FrameCtx) (st : WalkState)
    (vb ib count : Nat) (p : DrawCmdParams) (tex : Texture)
    (hlook : lookupTexture st.textures p.texture_id = some tex) :
    ((clip_skip fc p ∨ scissor_size_w fc p = 0 ∨ scissor_size_h fc p = 0) →
      (processElements fc st vb ib count p).2.countP isDrawCall = 0) ∧
    (¬(clip_skip fc p ∨ scissor_size_w fc p = 0 ∨ scissor_size_h fc p = 0) →
      (processElements fc st vb ib count p).2.countP isDrawCall = 1 ∧
      ∃ bg, (processElements fc st vb ib count p).2 =
        [.setVertexBuffer,
         .setScissor (scissor_x fc p) (scissor_y fc p) (scissor_size_w fc p)
           (scissor_size_h fc p),
         .setTextureBindGroup bg,
         .drawIndexed (ib + p.idx_offset) (ib + p.idx_offset + count)
           (vb + p.vtx_offset)]) := by
  unfold processElements
  rw [hlook]
  simp only [show (transformed_clip_l fc p ≥ fc.fb_width ∨
      transformed_clip_t fc p ≥ fc.fb_height ∨ transformed_clip_r fc p ≤ 0 ∨
      transformed_clip_b fc p ≤ 0) = clip_skip fc p from rfl]
  by_cases h1 : clip_skip fc p
  · have h1c := h1
    simp only [clip_skip, ge_iff_le] at h1c
    simp [h1, h1c, isDrawCall]
  · have h1c := h1
    simp only [clip_skip, ge_iff_le] at h1c
    by_cases h2 : scissor_size_w fc p = 0 ∨ scissor_size_h fc p = 0
    · rcases h2 with h2 | h2 <;> simp [h1, h1c, h2, isDrawCall]
    · push_neg at h2
      rcases hbg : tex.bind_group st.device fc.texture_bind_group_layout
        with ⟨bg, tex2, dev2⟩
      simp [h1, h1c, h2.1, h2.2, isDrawCall]

/-- C1 witness for the amended theorem: a clip rect lying inside the
framebuffer draws once with its own rounded rect as scissor. -/
theorem C1_clip_scissor_amended_witness :
    (processElements
      { fb_width := 100, fb_height := 100, display_pos_x := 0, display_pos_y := 0,
        framebuffer_scale_x := 1, framebuffer_scale_y := 1,
        texture_bind_group_layout := 2, view_bind_group := 1 }
      { textures := [(1, .View (TextureView.new none 0 SamplerDescriptor.default))],
        device := { next_id := 10 } } 0 0 6
      { clip_rect_l := 0, clip_rect_t := 0, clip_rect_r := 10, clip_rect_b := 10,
        texture_id := 1, vtx_offset := 0, idx_offset := 0 }).2.countP isDrawCall = 1 :=
  ((C1_clip_scissor_amended
    { fb_width := 100, fb_height := 100, display_pos_x := 0, display_pos_y := 0,
      framebuffer_scale_x := 1, framebuffer_scale_y := 1,
      texture_bind_group_layout := 2, view_bind_group := 1 }
    { textures := [(1, .View (TextureView.new none 0 SamplerDescriptor.default))],
      device := { next_id := 10 } } 0 0 6
    { clip_rect_l := 0, clip_rect_t := 0, clip_rect_r := 10, clip_rect_b := 10,
      texture_id := 1, vtx_offset := 0, idx_offset := 0 }
    (.View (TextureView.new none 0 SamplerDescriptor.default)) rfl).2
    (by norm_num [clip_skip, transformed_clip_l, transformed_clip_t,
      transformed_clip_r, transformed_clip_b, scissor_size_w, scissor_size_h,
      min_def])).1

end ImguiWgpu
